import Mathlib

/-!
Verification of the exchangelib core: XML element (de)serialization for
identity-bearing elements, auth-type negotiation over HTTP, the retry/backoff
cooldown, and the batched service-call engine.

The definitions below are a shallow embedding of the Python sources
(`properties.py`, `transport.py`, `services/get_folder.py`).  Python strings
become `String`, `None`-able values become `Option`, raised exceptions become
`Except PyError`, and the mutable XML tree node handed to `from_xml` is
threaded explicitly (the function returns the post-call state of the node).
Helpers that live in modules not present in this snapshot (`util.py`,
`services/common.py`, `errors.py`) are modelled from the specification and
marked as such in their doc comments.
-/

namespace Exchangelib

/-- Exceptions a modelled Python function can raise. -/
inductive PyError where
  | valueError
  | attributeError
  | assertionError
  | indexError
  | typeError
  | unauthorizedError
  | transportError
  deriving Repr, DecidableEq

/-- Modelled from the spec: the `TNS` ("types") namespace URI exported by
`exchangelib.services` / `exchangelib.util`, which are not part of this
snapshot.  The spec (§4.1) requires two parallel namespaces for the same
logical types; this is the "request"/types one used by `EWSElement`
subclasses with `NAMESPACE = TNS`. -/
def TNS : String := "http://schemas.microsoft.com/exchange/services/2006/types"

/-- Modelled from the spec: the `MNS` ("messages") namespace URI exported by
`exchangelib.services` / `exchangelib.util` (not in this snapshot) — the
second of the two parallel namespaces of §4.1. -/
def MNS : String := "http://schemas.microsoft.com/exchange/services/2006/messages"

/-- An XML element tree node, as used by the codec: a tag, a list of
attributes (`elem.set` / `elem.get`), optional text, and child elements. -/
structure XmlElem where
  tag : String
  attrib : List (String × String)
  text : Option String
  children : List XmlElem
  deriving Repr

/-- The `elem.get(key)` accessor: the value of the named attribute, or
`None` when absent. -/
def XmlElem.get (e : XmlElem) (key : String) : Option String :=
  (e.attrib.find? (fun kv => kv.1 = key)).map (fun kv => kv.2)

/-- The `elem.set(key, value)` mutator, returning the updated node. -/
def XmlElem.set (e : XmlElem) (key value : String) : XmlElem :=
  { e with attrib := e.attrib ++ [(key, value)] }

/-- The `elem.find(tag)` accessor: first child with the given tag, or
`None`. -/
def XmlElem.find (e : XmlElem) (t : String) : Option XmlElem :=
  e.children.find? (fun c => c.tag = t)

/-- The lxml `elem.clear()` mutator: removes all subelements, clears all
attributes and the text, keeping only the tag. -/
def XmlElem.clear (e : XmlElem) : XmlElem :=
  { e with attrib := [], text := none, children := [] }

/-- Modelled from the spec: `util.create_element` (not in this snapshot).
Per §4.1 the codec "must tag elements with the correct namespace prefix/URI
pair chosen per element class"; the helper translates a `t:`/`m:` prefixed
tag into its fully-qualified `\x7buri\x7dname` form so that the request tag of a
class coincides with its response tag.  `splitAtColon` is the
`name.split(':')` step. -/
def splitAtColon (cs : List Char) : Option (List Char × List Char) :=
  match cs with
  | [] => none
  | c :: rest =>
    if c = ':' then some ([], rest)
    else
      match splitAtColon rest with
      | none => none
      | some (p, n) => some (c :: p, n)

def create_element (name : String) : XmlElem :=
  match splitAtColon name.data with
  | some (p, n) =>
    let ps : String := ⟨p⟩
    let ns := if ps = "t" then TNS else if ps = "m" then MNS else ps
    { tag := "\x7b" ++ ns ++ "\x7d" ++ String.mk n, attrib := [], text := none, children := [] }
  | none => { tag := name, attrib := [], text := none, children := [] }

/-- The three concrete identity-element classes of `properties.py`:
`ItemId`, and its subclasses `ParentItemId` and `RootItemId`. -/
inductive IdKind where
  | itemId
  | parentItemId
  | rootItemId
  deriving Repr, DecidableEq

/-- An identity element: the `(id, changekey)` slot pair shared by `ItemId`
and its subclasses, tagged with the concrete class it belongs to. -/
structure IdElem where
  kind : IdKind
  id : String
  changekey : String
  deriving Repr, DecidableEq

/-- The class-level `ELEMENT_NAME` attribute. -/
def IdKind.elementName : IdKind → String
  | .itemId => "ItemId"
  | .parentItemId => "ParentItemId"
  | .rootItemId => "RootItemId"

/-- The class-level `NAMESPACE` attribute (`TNS` for `ItemId`, `MNS` for the
two subclasses). -/
def IdKind.namespaceUri : IdKind → String
  | .itemId => TNS
  | _ => MNS

/-- The class-level `ID_ATTR` attribute (`RootItemId` overrides it). -/
def IdKind.idAttr : IdKind → String
  | .rootItemId => "RootItemId"
  | _ => "Id"

/-- The class-level `CHANGEKEY_ATTR` attribute (`RootItemId` overrides it). -/
def IdKind.changekeyAttr : IdKind → String
  | .rootItemId => "RootItemChangeKey"
  | _ => "ChangeKey"

/-- `EWSElement.request_tag()`: `t:Name` or `m:Name` according to the class
namespace. -/
def IdKind.requestTag (k : IdKind) : String :=
  (if k.namespaceUri = TNS then "t:" else "m:") ++ k.elementName

/-- `EWSElement.response_tag()`: the fully qualified `\x7bns\x7dName` tag. -/
def IdKind.responseTag (k : IdKind) : String :=
  "\x7b" ++ k.namespaceUri ++ "\x7d" ++ k.elementName

/-- `ItemId.clean()`: both `id` and `changekey` must be non-empty strings;
a `None` or empty value raises `ValueError`. -/
def itemIdClean (id changekey : Option String) : Except PyError Unit :=
  match id with
  | none => .error .valueError
  | some i =>
    if i = "" then .error .valueError
    else
      match changekey with
      | none => .error .valueError
      | some c => if c = "" then .error .valueError else .ok ()

/-- `ItemId.__init__`: stores the two fields and calls `clean()`, so an
invalid pair raises at construction time. -/
def itemIdInit (k : IdKind) (id changekey : Option String) : Except PyError IdElem :=
  match itemIdClean id changekey with
  | .error e => .error e
  | .ok () => .ok { kind := k, id := id.getD "", changekey := changekey.getD "" }

/-- `ItemId.to_xml(version)`: calls `clean()`, creates the request-tag
element and sets the `ID_ATTR` and `CHANGEKEY_ATTR` attributes. -/
def itemIdToXml (e : IdElem) : Except PyError XmlElem :=
  match itemIdClean (some e.id) (some e.changekey) with
  | .error err => .error err
  | .ok () =>
    .ok (((create_element e.kind.requestTag).set e.kind.idAttr e.id).set
      e.kind.changekeyAttr e.changekey)

/-- `ItemId.from_xml(elem)`: `None` maps to `None`; a wrong tag trips the
assertion; otherwise the two attributes are read, the value is constructed
(running `clean()`), and the source node is cleared.  The returned pair is
(parsed value, post-call state of the source node). -/
def itemIdFromXml (k : IdKind) (elem : Option XmlElem) :
    Except PyError (Option IdElem × Option XmlElem) :=
  match elem with
  | none => .ok (none, none)
  | some e =>
    if e.tag = k.responseTag then
      match itemIdInit k (e.get k.idAttr) (e.get k.changekeyAttr) with
      | .error err => .error err
      | .ok r => .ok (some r, some e.clear)
    else .error .assertionError

/-- `ItemId.__eq__`: `False` against `None`, otherwise comparison of the
`id` and `changekey` fields only (the concrete class is not consulted). -/
def itemIdEq (a : IdElem) (other : Option IdElem) : Bool :=
  match other with
  | none => false
  | some b => a.id = b.id && a.changekey = b.changekey

/-- The request tag written by `to_xml` resolves, after namespace-prefix
translation, to exactly the response tag that `from_xml` asserts. -/
theorem request_tag_eq_response_tag (k : IdKind) :
    (create_element k.requestTag).tag = k.responseTag := by
  cases k <;> rfl

/-- The two attribute names of an identity element are distinct for every
concrete class. -/
theorem idAttr_ne_changekeyAttr (k : IdKind) : k.idAttr ≠ k.changekeyAttr := by
  cases k <;> decide

/-- C1: for every identity element `e` with non-empty `id` and `changekey`,
serializing and re-parsing round-trips: `to_xml` succeeds, `from_xml` on its
output succeeds and yields a value with the same `id` and `changekey`
(indeed the very same element), Python `==` holds between the parsed value
and `e`, and the source node handed back is the cleared one. -/
theorem itemId_from_xml_to_xml_roundtrip (e : IdElem)
    (hid : e.id ≠ "") (hck : e.changekey ≠ "") :
    ∃ x, itemIdToXml e = .ok x ∧
      itemIdFromXml e.kind (some x) = .ok (some e, some x.clear) ∧
      itemIdEq e (some e) = true := by
  obtain ⟨k, i, c⟩ := e
  simp only [IdElem.id, IdElem.changekey] at hid hck
  have hce : create_element (IdKind.requestTag k) =
      { tag := k.responseTag, attrib := [], text := none, children := [] } := by
    cases k <;> rfl
  have hclean : itemIdClean (some i) (some c) = .ok () := by
    simp [itemIdClean, hid, hck]
  have hne : ¬ (k.idAttr = k.changekeyAttr) := idAttr_ne_changekeyAttr k
  have hto : itemIdToXml ⟨k, i, c⟩ =
      .ok { tag := k.responseTag, attrib := [(k.idAttr, i), (k.changekeyAttr, c)],
            text := none, children := [] } := by
    simp [itemIdToXml, hclean, hce, XmlElem.set]
  refine ⟨_, hto, ?_, ?_⟩
  · simp [itemIdFromXml, XmlElem.get, XmlElem.clear, List.find?, hne, itemIdInit, hclean]
  · simp [itemIdEq]

/-- C1 witness: the round-trip theorem applied at a concrete identity
element. -/
theorem itemId_from_xml_to_xml_roundtrip_witness :
    ∃ x, itemIdToXml { kind := .itemId, id := "AAMk=", changekey := "CQAAAB" } = .ok x ∧
      itemIdFromXml IdKind.itemId (some x) =
        .ok (some { kind := .itemId, id := "AAMk=", changekey := "CQAAAB" }, some x.clear) ∧
      itemIdEq { kind := .itemId, id := "AAMk=", changekey := "CQAAAB" }
        (some { kind := .itemId, id := "AAMk=", changekey := "CQAAAB" }) = true :=
  itemId_from_xml_to_xml_roundtrip
    { kind := .itemId, id := "AAMk=", changekey := "CQAAAB" } (by decide) (by decide)

/-- C10: `ItemId.__eq__` compares only the `id` and `changekey` slots:
comparison with `None` is `False`, and an element of any concrete class
(`ItemId`, `ParentItemId`, `RootItemId`) equals an element of any other
class carrying the same `id` and `changekey` — the class tag does not
participate. -/
theorem itemId_eq_only_id_changekey (a : IdElem) (k : IdKind) :
    itemIdEq a none = false ∧
    itemIdEq a (some { kind := k, id := a.id, changekey := a.changekey }) = true := by
  constructor
  · rfl
  · simp [itemIdEq]

/-! Transport layer (`transport.py`): auth-type enums, the stateful
challenge tokenizer, auth-method resolution from a response, and the
version-probing loop of `get_service_authtype`. -/

/-- Auth method enum `NOAUTH` from `transport.py`. -/
def NOAUTH : String := "no authentication"

/-- Auth method enum `NTLM` from `transport.py`. -/
def NTLM : String := "NTLM"

/-- Auth method enum `BASIC` from `transport.py`. -/
def BASIC : String := "basic"

/-- Auth method enum `DIGEST` from `transport.py`. -/
def DIGEST : String := "digest"

/-- The loop body state of `_tokenize`: remaining input, the `auth_method`
accumulator, the `quote` flag, and the `auth_methods` list built so far. -/
def tokenizeAux (cs : List Char) (acc : String) (quote : Bool)
    (toks : List String) : List String :=
  match cs with
  | [] => if acc ≠ "" then toks ++ [acc] else toks
  | ch :: rest =>
    if (ch = ' ' ∨ ch = ',') ∧ ¬ quote then
      tokenizeAux rest "" quote
        (if acc ≠ "" ∧ acc ≠ "," then toks ++ [acc] else toks)
    else if ch = '"' then
      if quote then tokenizeAux rest "" false (toks ++ [acc.push ch])
      else tokenizeAux rest (acc.push ch) true toks
    else tokenizeAux rest (acc.push ch) quote toks

/-- `transport._tokenize(val)`: splits a `WWW-Authenticate` value into
challenge tokens on unquoted spaces and commas, tracking double quotes
statefully so separators inside a quoted region do not split the token. -/
def tokenize (val : String) : List String :=
  tokenizeAux val.data "" false []

/-- Python `str.lower()`, as applied to header names and challenge values
(ASCII case folding). -/
def strLower (s : String) : String := ⟨s.data.map Char.toLower⟩

/-- The realm-logging loop inside `get_auth_method_from_response`: for each
token starting with `realm`, `v.split("=")[1]` is taken, which raises
`IndexError` exactly when the token holds no `=` (the split then has a
single part). -/
def realmScan (vals : List String) : Except PyError Unit :=
  match vals with
  | [] => .ok ()
  | v :: rest =>
    if "realm".data.isPrefixOf v.data then
      if v.data.contains '=' then realmScan rest else .error .indexError
    else realmScan rest

/-- An HTTP response as consumed by the auth negotiator: a status code and
a header list. -/
structure HttpResponse where
  status : Nat
  headers : List (String × String)

/-- The header-scanning loop of `get_auth_method_from_response`: each
`WWW-Authenticate` header (case-insensitive name match) is tokenized
lower-cased; after the realm scan, `digest` is preferred over `ntlm` over
`basic`; a header offering no known scheme falls through to the next; when
no header yields a scheme, `UnauthorizedError` is raised. -/
def scanAuthHeaders (headers : List (String × String)) : Except PyError String :=
  match headers with
  | [] => .error .unauthorizedError
  | (key, val) :: rest =>
    if strLower key = "www-authenticate" then
      let vals := tokenize (strLower val)
      match realmScan vals with
      | .error e => .error e
      | .ok () =>
        if "digest" ∈ vals then .ok DIGEST
        else if "ntlm" ∈ vals then .ok NTLM
        else if "basic" ∈ vals then .ok BASIC
        else scanAuthHeaders rest
    else scanAuthHeaders rest

/-- `transport.get_auth_method_from_response(response)`: a `200` means no
authentication is required; otherwise the auth type is resolved from the
`WWW-Authenticate` headers. -/
def get_auth_method_from_response (r : HttpResponse) : Except PyError String :=
  if r.status = 200 then .ok NOAUTH
  else scanAuthHeaders r.headers

/-- The version-probing loop of `get_service_authtype`, abstracted over the
sequence of responses obtained for the candidate API versions (one usable
response per version, in descending preference order; the inner
connection-retry loop is modelled separately).  A response with status
outside `\x7b200, 401\x7d` is skipped; `UnauthorizedError` from auth resolution
moves on to the next version; exhausting all versions raises
`TransportError`. -/
def get_service_authtype (responses : List HttpResponse) : Except PyError String :=
  match responses with
  | [] => .error .transportError
  | r :: rest =>
    if r.status ≠ 200 ∧ r.status ≠ 401 then get_service_authtype rest
    else
      match get_auth_method_from_response r with
      | .ok a => .ok a
      | .error .unauthorizedError => get_service_authtype rest
      | .error e => .error e

/-- Inside a quoted region the tokenizer accumulates every character up to
the closing quote — separators included — and emits the whole region as one
token. -/
theorem tokenizeAux_quoted (cs : List Char) (acc : String) (toks : List String)
    (rest : List Char) (h : ∀ c ∈ cs, c ≠ '"') :
    tokenizeAux (cs ++ '"' :: rest) acc true toks =
      tokenizeAux rest "" false (toks ++ [⟨acc.data ++ cs ++ ['"']⟩]) := by
  induction cs generalizing acc with
  | nil =>
    simp only [List.nil_append, List.append_nil]
    show tokenizeAux ('"' :: rest) acc true toks = _
    simp [tokenizeAux]
    rfl
  | cons c cs ih =>
    have hc : c ≠ '"' := h c (List.mem_cons_self c cs)
    have hcs : ∀ x ∈ cs, x ≠ '"' := fun x hx => h x (List.mem_cons_of_mem c hx)
    simp only [List.cons_append, tokenizeAux, not_true, and_false, if_neg, hc,
      if_false, ite_false]
    show tokenizeAux (cs ++ '"' :: rest) (acc.push c) true toks = _
    rw [ih (acc.push c) hcs]
    simp [String.data_push, List.append_assoc]

/-- C6: the challenge tokenizer is stateful with respect to double quotes.
For every quote-free string `s`, the quoted challenge `realm="s"` — even
when `s` holds spaces and commas — is returned as one single token, while
the unquoted `a b,c` splits at each space and comma. -/
theorem tokenize_quote_stateful (s : String) (h : ∀ c ∈ s.data, c ≠ '"') :
    tokenize ("realm=\"" ++ s ++ "\"") = ["realm=\"" ++ s ++ "\""] ∧
    tokenize "a b,c" = ["a", "b", "c"] := by
  constructor
  · show tokenizeAux ('r' :: 'e' :: 'a' :: 'l' :: 'm' :: '=' :: '"' :: (s.data ++ '"' :: []))
      "" false [] = _
    have step : tokenizeAux ('r' :: 'e' :: 'a' :: 'l' :: 'm' :: '=' :: '"' ::
        (s.data ++ '"' :: [])) "" false [] =
        tokenizeAux (s.data ++ '"' :: []) "realm=\"" true [] := rfl
    rw [step, tokenizeAux_quoted s.data "realm=\"" [] [] h]
    rfl
  · rfl

/-- C6 witness: the tokenizer theorem applied at the spec's example
`realm="a b,c"`, whose quote-free interior holds both a space and a
comma. -/
theorem tokenize_quote_stateful_witness :
    tokenize ("realm=\"" ++ "a b,c" ++ "\"") = ["realm=\"" ++ "a b,c" ++ "\""] ∧
    tokenize "a b,c" = ["a", "b", "c"] :=
  tokenize_quote_stateful "a b,c" (by decide)

/-- A token list in which every token starting with `realm` holds an `=`
passes the realm-logging scan. -/
theorem realmScan_ok_of_eq_present (vals : List String)
    (h : ∀ v ∈ vals, "realm".data.isPrefixOf v.data → v.data.contains '=' = true) :
    realmScan vals = .ok () := by
  induction vals with
  | nil => rfl
  | cons v rest ih =>
    have hrest := fun x hx => h x (List.mem_cons_of_mem v hx)
    by_cases hp : "realm".data.isPrefixOf v.data
    · have hc : '=' ∈ v.data := by
        simpa using h v (List.mem_cons_self v rest) hp
      simp [realmScan, hp, hc, ih hrest]
    · simp [realmScan, hp, ih hrest]

/-- C3 counterexample: the `401` header `Digest realm, NTLM` offers two
known schemes (`digest` and `ntlm` are both among its tokens), yet
resolution does not select `digest`: the realm-logging loop hits the bare
token `realm`, whose `v.split("=")[1]` raises `IndexError` before any
scheme is checked. -/
theorem auth_resolution_realm_token_indexerror :
    "digest" ∈ tokenize (strLower "Digest realm, NTLM") ∧
    "ntlm" ∈ tokenize (strLower "Digest realm, NTLM") ∧
    get_auth_method_from_response ⟨401, [("WWW-Authenticate", "Digest realm, NTLM")]⟩ =
      .error .indexError ∧
    get_auth_method_from_response ⟨401, [("WWW-Authenticate", "Digest realm, NTLM")]⟩ ≠
      .ok DIGEST := by
  refine ⟨by decide, by decide, rfl, ?_⟩
  intro h
  have h2 : (Except.error PyError.indexError : Except PyError String) = .ok DIGEST := h
  simp at h2

/-- C3 (amended): for a `401` response whose `WWW-Authenticate` header has
an `=` in every challenge token that starts with `realm` (otherwise the
realm-logging loop raises `IndexError` before any scheme is selected),
resolution selects the most secure offered scheme under the fixed
precedence `digest > ntlm > basic`, and the spec's example header resolves
to `digest`. -/
theorem auth_resolution_precedence (val : String)
    (hrealmtok : ∀ v ∈ tokenize (strLower val),
      "realm".data.isPrefixOf v.data → v.data.contains '=' = true) :
    (("digest" ∈ tokenize (strLower val) →
        get_auth_method_from_response ⟨401, [("WWW-Authenticate", val)]⟩ = .ok DIGEST) ∧
      ("digest" ∉ tokenize (strLower val) → "ntlm" ∈ tokenize (strLower val) →
        get_auth_method_from_response ⟨401, [("WWW-Authenticate", val)]⟩ = .ok NTLM) ∧
      ("digest" ∉ tokenize (strLower val) → "ntlm" ∉ tokenize (strLower val) →
        "basic" ∈ tokenize (strLower val) →
        get_auth_method_from_response ⟨401, [("WWW-Authenticate", val)]⟩ = .ok BASIC)) ∧
    get_auth_method_from_response
      ⟨401, [("WWW-Authenticate", "Digest realm=\"x\", NTLM, Basic realm=\"y\"")]⟩ =
      .ok DIGEST := by
  have hrealm : realmScan (tokenize (strLower val)) = .ok () :=
    realmScan_ok_of_eq_present (tokenize (strLower val)) hrealmtok
  have hkey : strLower "WWW-Authenticate" = "www-authenticate" := rfl
  refine ⟨⟨?_, ?_, ?_⟩, rfl⟩
  · intro hd
    simp [get_auth_method_from_response, scanAuthHeaders, hkey, hrealm, hd]
  · intro hd hn
    simp [get_auth_method_from_response, scanAuthHeaders, hkey, hrealm, hd, hn]
  · intro hd hn hb
    simp [get_auth_method_from_response, scanAuthHeaders, hkey, hrealm, hd, hn, hb]

/-- C3 witness: the precedence theorem applied at the spec's example header
value, where all three schemes are offered and `digest` wins. -/
theorem auth_resolution_precedence_witness :
    get_auth_method_from_response
      ⟨401, [("WWW-Authenticate", "Digest realm=\"x\", NTLM, Basic realm=\"y\"")]⟩ =
      .ok DIGEST :=
  ((auth_resolution_precedence "Digest realm=\"x\", NTLM, Basic realm=\"y\""
    (by decide)).1.1 (by decide))

/-- A header list in which every `WWW-Authenticate` header (after
lower-casing and tokenizing) offers none of the three known schemes makes
the scanning loop fall through every header and raise
`UnauthorizedError`. -/
theorem scanAuthHeaders_no_known_scheme (headers : List (String × String))
    (h : ∀ kv ∈ headers, strLower kv.1 = "www-authenticate" →
      (∀ v ∈ tokenize (strLower kv.2),
        "realm".data.isPrefixOf v.data → v.data.contains '=' = true) ∧
      "digest" ∉ tokenize (strLower kv.2) ∧
      "ntlm" ∉ tokenize (strLower kv.2) ∧
      "basic" ∉ tokenize (strLower kv.2)) :
    scanAuthHeaders headers = .error .unauthorizedError := by
  induction headers with
  | nil => rfl
  | cons kv rest ih =>
    have hrest : ∀ p ∈ rest, strLower p.1 = "www-authenticate" →
        (∀ v ∈ tokenize (strLower p.2),
          "realm".data.isPrefixOf v.data → v.data.contains '=' = true) ∧
        "digest" ∉ tokenize (strLower p.2) ∧
        "ntlm" ∉ tokenize (strLower p.2) ∧
        "basic" ∉ tokenize (strLower p.2) :=
      fun p hp => h p (List.mem_cons_of_mem kv hp)
    by_cases hk : strLower kv.1 = "www-authenticate"
    · obtain ⟨hrealmtok, hd, hn, hb⟩ := h kv (List.mem_cons_self kv rest) hk
      have hrealm := realmScan_ok_of_eq_present (tokenize (strLower kv.2)) hrealmtok
      simp [scanAuthHeaders, hk, hrealm, hd, hn, hb, ih hrest]
    · simp [scanAuthHeaders, hk, ih hrest]

/-- C7 (amended): a usable response that is a `401` (not a `200` — a `200`
resolves to `NOAUTH` without consulting the header) whose
`WWW-Authenticate` headers offer no known scheme, and whose challenge
tokens starting with `realm` each hold an `=` (otherwise the realm-logging
loop raises `IndexError` instead, aborting probing), makes resolution
raise `UnauthorizedError`; and a probing run in which every candidate
version's response is either unusable (status outside 200/401) or resolves
to `UnauthorizedError` exhausts all versions and raises the terminal
`TransportError`. -/
theorem authtype_probe_failure_modes (r : HttpResponse) (rs : List HttpResponse)
    (hr : r.status ≠ 200)
    (hno : ∀ kv ∈ r.headers, strLower kv.1 = "www-authenticate" →
      (∀ v ∈ tokenize (strLower kv.2),
        "realm".data.isPrefixOf v.data → v.data.contains '=' = true) ∧
      "digest" ∉ tokenize (strLower kv.2) ∧
      "ntlm" ∉ tokenize (strLower kv.2) ∧
      "basic" ∉ tokenize (strLower kv.2))
    (hall : ∀ x ∈ rs, (x.status ≠ 200 ∧ x.status ≠ 401) ∨
      get_auth_method_from_response x = .error .unauthorizedError) :
    get_auth_method_from_response r = .error .unauthorizedError ∧
    get_service_authtype rs = .error .transportError := by
  constructor
  · simp [get_auth_method_from_response, hr, scanAuthHeaders_no_known_scheme r.headers hno]
  · clear hr hno
    induction rs with
    | nil => rfl
    | cons x rest ih =>
      have hx := hall x (List.mem_cons_self x rest)
      have hrest := fun y hy => hall y (List.mem_cons_of_mem x hy)
      rcases hx with ⟨h200, h401⟩ | hu
      · simp [get_service_authtype, h200, h401, ih hrest]
      · by_cases husable : x.status ≠ 200 ∧ x.status ≠ 401
        · simp [get_service_authtype, husable, ih hrest]
        · simp only [get_service_authtype, if_neg husable, hu, ih hrest]

/-- C7 witness: a `401` offering only the unknown scheme `Negotiate`
resolves to `UnauthorizedError`, and probing over two such unusable or
unauthorized responses ends in `TransportError`. -/
theorem authtype_probe_failure_modes_witness :
    get_auth_method_from_response ⟨401, [("WWW-Authenticate", "Negotiate")]⟩ =
      .error .unauthorizedError ∧
    get_service_authtype [⟨302, []⟩, ⟨401, [("WWW-Authenticate", "Negotiate")]⟩] =
      .error .transportError := by
  refine authtype_probe_failure_modes
    ⟨401, [("WWW-Authenticate", "Negotiate")]⟩
    [⟨302, []⟩, ⟨401, [("WWW-Authenticate", "Negotiate")]⟩]
    (by decide) ?_ ?_
  · intro kv hkv hk
    simp only [List.mem_singleton] at hkv
    subst hkv
    refine ⟨?_, ?_, ?_, ?_⟩ <;> decide
  · intro x hx
    simp only [List.mem_cons, List.mem_singleton] at hx
    rcases hx with hx | hx | hx
    · subst hx
      exact Or.inl (by decide)
    · subst hx
      exact Or.inr rfl
    · cases hx

/-- C7 counterexample: the claim fails at two concrete inputs.  A `200`
whose `WWW-Authenticate` header offers no known scheme does not fail —
`get_auth_method_from_response` returns `NOAUTH` without consulting the
header at all.  And a `401` whose header `Negotiate realm` contains no
known scheme raises `IndexError` (from `v.split("=")[1]` on the bare
`realm` token), not the claimed unauthorized error; that `IndexError` is
not caught by the probing loop, which aborts instead of trying further
versions. -/
theorem authtype_probe_failure_counterexamples :
    (get_auth_method_from_response ⟨200, [("WWW-Authenticate", "Negotiate")]⟩ = .ok NOAUTH ∧
      ∀ e : PyError,
        get_auth_method_from_response ⟨200, [("WWW-Authenticate", "Negotiate")]⟩ ≠ .error e) ∧
    get_auth_method_from_response ⟨401, [("WWW-Authenticate", "Negotiate realm")]⟩ =
      .error .indexError ∧
    get_auth_method_from_response ⟨401, [("WWW-Authenticate", "Negotiate realm")]⟩ ≠
      .error .unauthorizedError ∧
    get_service_authtype [⟨401, [("WWW-Authenticate", "Negotiate realm")]⟩, ⟨401, []⟩] =
      .error .indexError := by
  refine ⟨⟨rfl, fun e h => Except.noConfusion h⟩, rfl, ?_, rfl⟩
  intro h
  have h2 : (Except.error PyError.indexError : Except PyError String) =
      .error .unauthorizedError := h
  simp at h2

/-! Mailbox records (`properties.py`): construction-time validation, hashing,
and XML parsing. -/

/-- The closed set `Mailbox.MAILBOX_TYPES`. -/
def MAILBOX_TYPES : List String :=
  ["Mailbox", "PublicDL", "PrivateDL", "Contact", "PublicFolder", "Unknown", "OneOff"]

/-- A `Mailbox` record: the four slots of `properties.Mailbox`. -/
structure Mailbox where
  name : Option String
  email_address : Option String
  mailbox_type : Option String
  item_id : Option IdElem
  deriving Repr, DecidableEq

/-- The `assert self.mailbox_type in self.MAILBOX_TYPES` check of
`Mailbox.clean` (vacuous when the field is `None`). -/
def mailboxTypeOk : Option String → Bool
  | none => true
  | some t => MAILBOX_TYPES.contains t

/-- A Python-falsy `email_address`: `None` or the empty string (the
`not self.email_address` truthiness test). -/
def emailFalsy : Option String → Bool
  | none => true
  | some e => e = ""

/-- `Mailbox.clean()`: the `isinstance` asserts hold by typing except the
`mailbox_type` membership assert; then, when both `email_address` and
`item_id` are falsy, an `AttributeError` is raised. -/
def mailboxClean (m : Mailbox) : Except PyError Unit :=
  if mailboxTypeOk m.mailbox_type then
    if emailFalsy m.email_address ∧ m.item_id = none then .error .attributeError
    else .ok ()
  else .error .assertionError

/-- `Mailbox.__init__`: stores the four fields and calls `clean()`, so a
broken invariant raises at construction time, before any network I/O. -/
def mailboxInit (name email_address mailbox_type : Option String)
    (item_id : Option IdElem) : Except PyError Mailbox :=
  match mailboxClean ⟨name, email_address, mailbox_type, item_id⟩ with
  | .error e => .error e
  | .ok () => .ok ⟨name, email_address, mailbox_type, item_id⟩

/-- A model of Python's opaque string hash; the hashing claims depend only
on the delegation structure of `Mailbox.__hash__`, not on the underlying
hash values. -/
def strHash (s : String) : Nat :=
  s.data.foldl (fun h c => h * 31 + c.toNat) 7

/-- A model of Python's tuple hash for a two-string tuple. -/
def pairHash (a b : Nat) : Nat := a * 1000003 + b

/-- The hash of an `ItemId`, inherited from `EWSElement.__hash__`: the hash
of the `(id, changekey)` slot tuple (the concrete class is not part of
it). -/
def itemIdHash (i : IdElem) : Nat := pairHash (strHash i.id) (strHash i.changekey)

/-- `Mailbox.__hash__`: the hash of `item_id` when present (truthy),
otherwise the hash of the lower-cased `email_address` (raising
`AttributeError` on `None`). -/
def mailboxHash (m : Mailbox) : Except PyError Nat :=
  match m.item_id with
  | some i => .ok (itemIdHash i)
  | none =>
    match m.email_address with
    | some e => .ok (strHash (strLower e))
    | none => .error .attributeError

/-- Modelled from the spec: `util.get_xml_attr` (not in this snapshot) —
the codec helper that finds the named child element and extracts its text,
`None` when the child is missing. -/
def get_xml_attr (e : XmlElem) (tag : String) : Option String :=
  match e.find tag with
  | none => none
  | some c => c.text

/-- The `Mailbox` response tag `\x7bTNS\x7dMailbox`. -/
def mailboxResponseTag : String := "\x7b" ++ TNS ++ "\x7d" ++ "Mailbox"

/-- `Mailbox.from_xml(elem)`: `None` maps to `None`; a wrong tag trips the
assertion; otherwise `Name`/`EmailAddress`/`MailboxType` texts are read,
the `ItemId` child is parsed via `ItemId.from_xml` (which clears that child
in place — unobservable in the result since the whole node is cleared
next), the record is constructed (running `clean()`), and the source node
is cleared. -/
def mailboxFromXml (elem : Option XmlElem) :
    Except PyError (Option Mailbox × Option XmlElem) :=
  match elem with
  | none => .ok (none, none)
  | some e =>
    if e.tag = mailboxResponseTag then
      match itemIdFromXml .itemId (e.find (IdKind.responseTag .itemId)) with
      | .error err => .error err
      | .ok (iid, _) =>
        match mailboxInit (get_xml_attr e ("\x7b" ++ TNS ++ "\x7d" ++ "Name"))
            (get_xml_attr e ("\x7b" ++ TNS ++ "\x7d" ++ "EmailAddress"))
            (get_xml_attr e ("\x7b" ++ TNS ++ "\x7d" ++ "MailboxType")) iid with
        | .error err => .error err
        | .ok m => .ok (some m, some e.clear)
    else .error .assertionError

/-- C4 counterexample: a `Mailbox` constructed with `email_address` set to
the empty string (non-null) and `item_id` null still fails — Python
truthiness treats `""` as absent — so "with either `email_address` or
`item_id` set, construction succeeds" is false as stated. -/
theorem mailbox_empty_email_construction_fails :
    mailboxInit none (some "") none none = .error .attributeError ∧
    (some "" : Option String) ≠ none :=
  ⟨rfl, by simp⟩

/-- C4 (amended): constructing a `Mailbox` with both `email_address` and
`item_id` null raises at construction time; with a non-empty
`email_address`, or with an `item_id`, construction succeeds (an
empty-string `email_address` counts as absent). -/
theorem mailbox_identity_validation (nm mt : Option String) (e : String) (iid : IdElem)
    (hmt : mailboxTypeOk mt = true) (he : e ≠ "") :
    mailboxInit nm none mt none = .error .attributeError ∧
    mailboxInit nm (some e) mt none = .ok ⟨nm, some e, mt, none⟩ ∧
    mailboxInit nm none mt (some iid) = .ok ⟨nm, none, mt, some iid⟩ := by
  refine ⟨?_, ?_, ?_⟩ <;>
    simp [mailboxInit, mailboxClean, hmt, emailFalsy, he]

/-- C4 witness: the validation theorem at concrete field values. -/
theorem mailbox_identity_validation_witness :
    mailboxInit none none (some "Mailbox") none = .error .attributeError ∧
    mailboxInit none (some "john@example.com") (some "Mailbox") none =
      .ok ⟨none, some "john@example.com", some "Mailbox", none⟩ ∧
    mailboxInit none none (some "Mailbox") (some ⟨.itemId, "a", "b"⟩) =
      .ok ⟨none, none, some "Mailbox", some ⟨.itemId, "a", "b"⟩⟩ :=
  mailbox_identity_validation none (some "Mailbox") "john@example.com"
    ⟨.itemId, "a", "b"⟩ (by decide) (by decide)

/-- C5: `Mailbox.__hash__` delegates to the hash of `item_id` when present
— hence it is invariant under any change to `name` and `mailbox_type` that
keeps `item_id` — and otherwise equals the hash of the lower-cased
`email_address`. -/
theorem mailbox_hash_delegation (m : Mailbox) :
    (∀ iid, m.item_id = some iid →
      mailboxHash m = .ok (itemIdHash iid) ∧
      ∀ nm mt, mailboxHash { m with name := nm, mailbox_type := mt } = mailboxHash m) ∧
    (∀ e, m.item_id = none → m.email_address = some e →
      mailboxHash m = .ok (strHash (strLower e))) := by
  constructor
  · intro iid hiid
    constructor
    · simp [mailboxHash, hiid]
    · intro nm mt
      simp [mailboxHash, hiid]
  · intro e hnone hemail
    simp [mailboxHash, hnone, hemail]

/-- C5 witness: the delegation theorem at two concrete records — one
holding an `item_id` (whose hash survives a change of `name` and
`mailbox_type`), one identified by email only. -/
theorem mailbox_hash_delegation_witness :
    mailboxHash ⟨some "John", some "j@example.com", none, some ⟨.itemId, "a", "b"⟩⟩ =
      .ok (itemIdHash ⟨.itemId, "a", "b"⟩) ∧
    mailboxHash ⟨some "Other", some "j@example.com", some "Contact",
        some ⟨.itemId, "a", "b"⟩⟩ =
      mailboxHash ⟨some "John", some "j@example.com", none, some ⟨.itemId, "a", "b"⟩⟩ ∧
    mailboxHash ⟨none, some "J@Example.COM", none, none⟩ =
      .ok (strHash (strLower "J@Example.COM")) :=
  ⟨((mailbox_hash_delegation
      ⟨some "John", some "j@example.com", none, some ⟨.itemId, "a", "b"⟩⟩).1 _ rfl).1,
   ((mailbox_hash_delegation
      ⟨some "John", some "j@example.com", none, some ⟨.itemId, "a", "b"⟩⟩).1 _ rfl).2
     (some "Other") (some "Contact"),
   (mailbox_hash_delegation ⟨none, some "J@Example.COM", none, none⟩).2 _ rfl rfl⟩

/-- C9: on a successful parse of a non-null node, `from_xml` hands back the
source node cleared — children, attributes and text all released, only the
tag kept — for both the identity-element codec and the mailbox codec. -/
theorem from_xml_clears_source_node (e : XmlElem) :
    (∀ (k : IdKind) (r : Option IdElem) (e2 : Option XmlElem),
      itemIdFromXml k (some e) = .ok (r, e2) →
      e2 = some { tag := e.tag, attrib := [], text := none, children := [] }) ∧
    (∀ (m : Option Mailbox) (e2 : Option XmlElem),
      mailboxFromXml (some e) = .ok (m, e2) →
      e2 = some { tag := e.tag, attrib := [], text := none, children := [] }) := by
  constructor
  · intro k r e2 h
    simp only [itemIdFromXml] at h
    split at h
    · split at h
      · cases h
      · simp only [Except.ok.injEq, Prod.mk.injEq] at h
        exact h.2.symm
    · cases h
  · intro m e2 h
    simp only [mailboxFromXml] at h
    split at h
    · split at h
      · cases h
      · split at h
        · cases h
        · simp only [Except.ok.injEq, Prod.mk.injEq] at h
          exact h.2.symm
    · cases h

/-- A concrete `ItemId` response node carrying attributes, text and a
child, used as the input of the clearing claim's witness. -/
def sampleItemIdNode : XmlElem where
  tag := IdKind.itemId.responseTag
  attrib := [("Id", "a"), ("ChangeKey", "b")]
  text := some "leftover"
  children := [{ tag := "child", attrib := [], text := none, children := [] }]

/-- C9 witness: the clearing theorem at `sampleItemIdNode` — the parse
succeeds and the node handed back is the cleared one, its extracted
content all released. -/
theorem from_xml_clears_source_node_witness :
    itemIdFromXml .itemId (some sampleItemIdNode) =
      .ok (some { kind := .itemId, id := "a", changekey := "b" },
        some sampleItemIdNode.clear) ∧
    some sampleItemIdNode.clear =
      some { tag := sampleItemIdNode.tag, attrib := [], text := none, children := [] } :=
  ⟨rfl,
   (from_xml_clears_source_node sampleItemIdNode).1
     .itemId (some { kind := .itemId, id := "a", changekey := "b" }) _ rfl⟩

/-! Retry/backoff cooldown (`transport.get_service_authtype` inner loop,
with the `util` helpers modelled from spec section 4.4). -/

/-- Modelled from the spec: `util.RETRY_WAIT` (not in this snapshot), the
"fixed default" wait used when the server supplies no `Retry-After`. -/
def RETRY_WAIT : Nat := 10

/-- The shared cooldown state: the current (monotonic) clock and the
process-wide `back_off_until` timestamp. -/
structure BackoffState where
  clock : Nat
  backOffUntil : Nat
  deriving Repr, DecidableEq

/-- Modelled from the spec: `util._back_off_if_needed` (not in this
snapshot) — "if the current time is before this timestamp, the caller
sleeps until it elapses before issuing the next attempt". -/
def backOffIfNeeded (s : BackoffState) : BackoffState :=
  if s.clock < s.backOffUntil then { s with clock := s.backOffUntil } else s

/-- Modelled from the spec: `util._retry_after(response, default)` (not in
this snapshot) — the wait is the server-supplied `Retry-After` when
present, else the fixed default. -/
def retryAfterWait (retryAfter : Option Nat) (fallback : Nat) : Nat :=
  retryAfter.getD fallback

/-- Modelled from the spec: `retry_policy.back_off(wait)` (not in this
snapshot) — advances the shared `back_off_until` to now plus the computed
wait. -/
def backOff (s : BackoffState) (wait : Nat) : BackoffState :=
  { s with backOffUntil := s.clock + wait }

/-- What one POST attempt of the probing loop runs into: a retryable
connection error (with the server's optional `Retry-After`) or an HTTP
response. -/
inductive AttemptOutcome where
  | connError (retryAfter : Option Nat)
  | response (status : Nat)

/-- How the inner probing loop ends: with a response to classify, or with
the terminal `TransportError` once the policy refuses another retry. -/
inductive ProbeResult where
  | response (status : Nat)
  | transportFail

/-- The observable trace of the probing loop: per attempt, its start time
and the `back_off_until` in force right after it; the final state; the
outcome. -/
structure ProbeTrace where
  attempts : List (Nat × Nat)
  final : BackoffState
  result : Option ProbeResult

/-- The `while True` loop body of `get_service_authtype` for one candidate
version: before every attempt the shared cooldown is consulted
(`_back_off_if_needed`); a connection error, when the policy still permits
a retry given the total elapsed wait, computes the wait
(`_retry_after(r, RETRY_WAIT)`), advances the cooldown
(`retry_policy.back_off(wait)`) and loops; otherwise the attempt's
response (or the terminal failure) ends the loop. -/
def probeVersion (mayRetry : Nat → Bool) (tStart : Nat) (s : BackoffState) :
    List AttemptOutcome → ProbeTrace
  | [] => ⟨[], s, none⟩
  | o :: rest =>
    let s1 := backOffIfNeeded s
    match o with
    | .response st => ⟨[(s1.clock, s1.backOffUntil)], s1, some (.response st)⟩
    | .connError ra =>
      if mayRetry (s1.clock - tStart) then
        let s2 := backOff s1 (retryAfterWait ra RETRY_WAIT)
        let t := probeVersion mayRetry tStart s2 rest
        ⟨(s1.clock, s2.backOffUntil) :: t.attempts, t.final, t.result⟩
      else ⟨[(s1.clock, s1.backOffUntil)], s1, some .transportFail⟩

/-- Sleeping until the cooldown elapses leaves the clock at or past the
cooldown timestamp. -/
theorem backOffUntil_le_clock (s : BackoffState) :
    s.backOffUntil ≤ (backOffIfNeeded s).clock := by
  unfold backOffIfNeeded
  split
  · exact Nat.le_refl _
  · omega

/-- C8: every probing attempt starts no earlier than the cooldown in force
when it is issued — the first no earlier than the initial `back_off_until`
— and after a retryable connection error at time `t` the cooldown is
advanced to exactly `t` plus the computed wait (`Retry-After` when the
server sent one, else the fixed default), so the following attempt starts
no earlier than `t` plus that wait. -/
theorem backoff_cooldown_respected (mayRetry : Nat → Bool) (tStart : Nat)
    (s : BackoffState) (outcomes : List AttemptOutcome) :
    (∀ t u, (probeVersion mayRetry tStart s outcomes).attempts.head? = some (t, u) →
      s.backOffUntil ≤ t) ∧
    (∀ i ra t u t2 u2, outcomes.get? i = some (.connError ra) →
      (probeVersion mayRetry tStart s outcomes).attempts.get? i = some (t, u) →
      (probeVersion mayRetry tStart s outcomes).attempts.get? (i + 1) = some (t2, u2) →
      u = t + retryAfterWait ra RETRY_WAIT ∧ t + retryAfterWait ra RETRY_WAIT ≤ t2) := by
  induction outcomes generalizing s with
  | nil =>
    constructor
    · intro t u h
      simp [probeVersion] at h
    · intro i ra t u t2 u2 hout h1 h2
      simp [probeVersion] at h1
  | cons o rest ih =>
    constructor
    · intro t u h
      cases o with
      | response st =>
        simp only [probeVersion, List.head?] at h
        cases h
        exact backOffUntil_le_clock s
      | connError ra =>
        simp only [probeVersion] at h
        by_cases hmr : mayRetry ((backOffIfNeeded s).clock - tStart)
        · rw [if_pos hmr] at h
          simp only [List.head?] at h
          cases h
          exact backOffUntil_le_clock s
        · rw [if_neg hmr] at h
          simp only [List.head?] at h
          cases h
          exact backOffUntil_le_clock s
    · intro i ra t u t2 u2 hout h1 h2
      cases o with
      | response st =>
        simp only [probeVersion] at h2
        simp at h2
      | connError ra2 =>
        simp only [probeVersion] at h1 h2
        by_cases hmr : mayRetry ((backOffIfNeeded s).clock - tStart)
        · rw [if_pos hmr] at h1 h2
          cases i with
          | zero =>
            simp only [List.get?] at h1 h2 hout
            cases hout
            cases h1
            constructor
            · rfl
            · have hfirst := (ih (backOff (backOffIfNeeded s)
                (retryAfterWait ra RETRY_WAIT))).1
              have := hfirst t2 u2 (by
                rw [← List.get?_zero]
                exact h2)
              simpa [backOff] using this
          | succ j =>
            simp only [List.get?] at h1 h2 hout
            exact (ih (backOff (backOffIfNeeded s)
              (retryAfterWait ra2 RETRY_WAIT))).2 j ra t u t2 u2 hout h1 h2
        · rw [if_neg hmr] at h1 h2
          cases i with
          | zero => simp at h2
          | succ j => simp at h1

/-- C8 witness: the cooldown theorem on a concrete trace — one retryable
connection error with `Retry-After: 5` at time 0 advances the cooldown to
5, and the next attempt does not start before time 5. -/
theorem backoff_cooldown_respected_witness :
    5 = 0 + retryAfterWait (some 5) RETRY_WAIT ∧
    0 + retryAfterWait (some 5) RETRY_WAIT ≤ 5 :=
  (backoff_cooldown_respected (fun _ => true) 0 ⟨0, 0⟩
    [.connError (some 5), .response 401]).2 0 (some 5) 0 5 5 5 rfl rfl rfl

/-! Batched service-call engine (`services/get_folder.py`, with the chunk
machinery of `services/common.py` and the error classes of `errors.py`
modelled from spec section 4.5). -/

/-- Modelled from the spec / `errors.py` (not in this snapshot): the
protocol-level fault classes a response element can signal.  The three
named ones are the faults `GetFolder` adds to its catch list; `baseCaught`
stands for any fault already in the base class's
`ERRORS_TO_CATCH_IN_RESPONSE`; `uncaught` for any other fault. -/
inductive EwsError where
  | errorFolderNotFound
  | errorNoPublicFolderReplicaAvailable
  | errorInvalidOperation
  | baseCaught (code : Nat)
  | uncaught (code : Nat)
  deriving Repr, DecidableEq

/-- `GetFolder.ERRORS_TO_CATCH_IN_RESPONSE`: the base class's catch list
extended with `ErrorFolderNotFound`, `ErrorNoPublicFolderReplicaAvailable`
and `ErrorInvalidOperation`. -/
def getFolderCatches : EwsError → Bool
  | .errorFolderNotFound => true
  | .errorNoPublicFolderReplicaAvailable => true
  | .errorInvalidOperation => true
  | .baseCaught _ => true
  | .uncaught _ => false

/-- One response element of a chunk response: a payload to parse, or a
server-reported fault tied to that position. -/
inductive RespElem (E : Type) where
  | success (elem : E)
  | fault (err : EwsError)
  deriving Repr, DecidableEq

/-- How a whole batched call can fail (as opposed to a per-item error
value): a response-cardinality mismatch, or a fault outside the
operation's catch list, both fatal per spec section 4.5. -/
inductive CallError where
  | protocolShapeError
  | uncaughtFault (k : EwsError)
  deriving Repr, DecidableEq

/-- Modelled from the spec: the per-response-element error handling of
`services/common.py` (not in this snapshot) — a fault in the operation's
catch list is surfaced as an error value at that element's position, any
other fault aborts the whole call. -/
def convertElem {E : Type} (catches : EwsError → Bool) :
    RespElem E → Except CallError (Except EwsError E)
  | .success el => .ok (.ok el)
  | .fault k => if catches k then .ok (.error k) else .error (.uncaughtFault k)

/-- Modelled from the spec: chunking of `services/common.py` (not in this
snapshot) — "partition `items` into server-imposed maximum chunk sizes".
The recursion is driven by an explicit fuel equal to the list length
(every step with a positive chunk size consumes at least one element), so
the function is structurally recursive. -/
def chunkifyFuel {α : Type} : Nat → Nat → List α → List (List α)
  | _, _, [] => []
  | 0, _, _ :: _ => []
  | fuel + 1, C, x :: xs => (x :: xs).take C :: chunkifyFuel fuel C ((x :: xs).drop C)

def chunkify {α : Type} (C : Nat) (l : List α) : List (List α) :=
  if C = 0 then [] else chunkifyFuel l.length C l

/-- With enough fuel and a positive chunk size, concatenating the chunks
gives the list back. -/
theorem chunkifyFuel_flatten {α : Type} (fuel C : Nat) (hC : 0 < C) (l : List α)
    (hf : l.length ≤ fuel) : (chunkifyFuel fuel C l).flatten = l := by
  induction fuel generalizing l with
  | zero =>
    cases l with
    | nil => rfl
    | cons x xs => simp at hf
  | succ n ih =>
    cases l with
    | nil => rfl
    | cons x xs =>
      have hd : ((x :: xs).drop C).length ≤ n := by
        simp only [List.length_drop, List.length_cons] at hf ⊢
        omega
      simp only [chunkifyFuel, List.flatten_cons]
      rw [ih ((x :: xs).drop C) hd, List.take_append_drop]

/-- Chunking at a positive size partitions the list: concatenating the
chunks gives the list back. -/
theorem chunkify_flatten {α : Type} (C : Nat) (hC : 0 < C) (l : List α) :
    (chunkify C l).flatten = l := by
  unfold chunkify
  rw [if_neg (by omega)]
  exact chunkifyFuel_flatten l.length C hC l (Nat.le_refl _)

/-- The element-wise conversion over one chunk's response elements
(modelled from the spec's section 4.5 per-element error capture). -/
def getElementsChunk {E : Type} (catches : EwsError → Bool) :
    List (RespElem E) → Except CallError (List (Except EwsError E))
  | [] => .ok []
  | r :: rest =>
    match convertElem catches r with
    | .error e => .error e
    | .ok v =>
      match getElementsChunk catches rest with
      | .error e => .error e
      | .ok vs => .ok (v :: vs)

/-- Modelled from the spec: `_chunked_get_elements` of `services/common.py`
(not in this snapshot) — one wire call per chunk (`server` abstracts
building the payload, sending it and splitting the multi-part response
into response elements), a fatal protocol-shape error when a chunk's
response count mismatches its item count, per-element error capture
otherwise, results concatenated in order. -/
def gatherChunks {F E : Type} (catches : EwsError → Bool)
    (server : List F → List (RespElem E)) :
    List (List F) → Except CallError (List (Except EwsError E))
  | [] => .ok []
  | ch :: rest =>
    if (server ch).length = ch.length then
      match getElementsChunk catches (server ch) with
      | .error e => .error e
      | .ok parsed =>
        match gatherChunks catches server rest with
        | .error e => .error e
        | .ok more => .ok (parsed ++ more)
    else .error .protocolShapeError

/-- `GetFolder._elems_to_objs`: zips the requested folders with the
response-element stream; an exception value is yielded unchanged at its
position, any other element is parsed against the folder it was requested
with. -/
def elemsToObjs {F E O : Type} (parse : F → E → O) (folders : List F)
    (elems : List (Except EwsError E)) : List (Except EwsError O) :=
  (folders.zip elems).map (fun p =>
    match p.2 with
    | .error x => .error x
    | .ok el => .ok (parse p.1 el))

/-- `GetFolder.call`: chunk the folder list, gather the per-chunk response
elements, and feed them through `_elems_to_objs` (`parse` abstracts
`parse_folder_elem`, external to this core). -/
def getFolderCall {F E O : Type} (C : Nat) (server : List F → List (RespElem E))
    (parse : F → E → O) (folders : List F) : Except CallError (List (Except EwsError O)) :=
  match gatherChunks getFolderCatches server (chunkify C folders) with
  | .error e => .error e
  | .ok elems => .ok (elemsToObjs parse folders elems)

/-- The value a single response element contributes to the stream when its
fault (if any) is caught. -/
def respValue {E : Type} : RespElem E → Except EwsError E
  | .success el => .ok el
  | .fault k => .error k

/-- Whether a response element is harmless for the whole call: a success,
or a fault appearing in the operation's catch list. -/
def isCaught {E : Type} (catches : EwsError → Bool) : RespElem E → Bool
  | .success _ => true
  | .fault k => catches k

/-- The caller-visible output the spec promises: folders zipped positionally
with the flattened response elements; a recoverable fault becomes the error
value at exactly that folder's position, a success parses against that
folder.  (Stated from the spec's words, to be compared with
`getFolderCall`.) -/
def specAlignedOutput {F E O : Type} (parse : F → E → O) (folders : List F)
    (resps : List (RespElem E)) : List (Except EwsError O) :=
  (folders.zip resps).map (fun p =>
    match p.2 with
    | .fault k => .error k
    | .success el => .ok (parse p.1 el))

/-- A chunk whose faults are all in the catch list converts element-wise,
each element contributing `respValue`. -/
theorem getElementsChunk_all_caught {E : Type} (catches : EwsError → Bool)
    (resp : List (RespElem E))
    (h : ∀ r ∈ resp, isCaught catches r = true) :
    getElementsChunk catches resp = .ok (resp.map respValue) := by
  induction resp with
  | nil => rfl
  | cons r rest ih =>
    have hr := h r (List.mem_cons_self r rest)
    have hrest := fun x hx => h x (List.mem_cons_of_mem r hx)
    cases r with
    | success el =>
      simp [getElementsChunk, convertElem, ih hrest, respValue]
    | fault k =>
      have hck : catches k = true := by simpa [isCaught] using hr
      simp [getElementsChunk, convertElem, hck, ih hrest, respValue]

/-- Gathering over chunks whose response counts match and whose faults are
all caught succeeds and yields the flattened element-wise conversion. -/
theorem gatherChunks_all_caught {F E : Type} (catches : EwsError → Bool)
    (server : List F → List (RespElem E)) (chunks : List (List F))
    (hlen : ∀ ch ∈ chunks, (server ch).length = ch.length)
    (hrec : ∀ ch ∈ chunks, ∀ r ∈ server ch, isCaught catches r = true) :
    gatherChunks catches server chunks = .ok (((chunks.map server).flatten).map respValue) := by
  induction chunks with
  | nil => rfl
  | cons ch rest ih =>
    have hl := hlen ch (List.mem_cons_self ch rest)
    have hr := hrec ch (List.mem_cons_self ch rest)
    have hlrest := fun x hx => hlen x (List.mem_cons_of_mem ch hx)
    have hrrest := fun x hx => hrec x (List.mem_cons_of_mem ch hx)
    simp only [gatherChunks, if_pos hl, getElementsChunk_all_caught catches (server ch) hr,
      ih hlrest hrrest]
    simp [List.map_append]

/-- Under matching chunk response counts, the flattened responses are as
many as the items. -/
theorem joined_responses_length {F E : Type} (server : List F → List (RespElem E))
    (chunks : List (List F))
    (hlen : ∀ ch ∈ chunks, (server ch).length = ch.length) :
    ((chunks.map server).flatten).length = chunks.flatten.length := by
  induction chunks with
  | nil => rfl
  | cons ch rest ih =>
    have hl := hlen ch (List.mem_cons_self ch rest)
    have hlrest := fun x hx => hlen x (List.mem_cons_of_mem ch hx)
    simp [List.flatten_cons, hl, ih hlrest]

/-- C2: a `GetFolder` batch call over any folder list, chunked at any
positive size, whose chunk responses have one element per requested folder
and signal only faults in the operation's catch list (which holds in
particular for the three recoverable faults `GetFolder` registers), yields
exactly one entry per input folder in input order: the error value at
exactly the faulted positions, the parsed folder everywhere else. -/
theorem getFolder_per_item_alignment {F E O : Type} (C : Nat) (hC : 0 < C)
    (folders : List F) (server : List F → List (RespElem E)) (parse : F → E → O)
    (hlen : ∀ ch ∈ chunkify C folders, (server ch).length = ch.length)
    (hrec : ∀ ch ∈ chunkify C folders, ∀ r ∈ server ch,
      isCaught getFolderCatches r = true) :
    getFolderCall C server parse folders =
      .ok (specAlignedOutput parse folders (((chunkify C folders).map server).flatten)) ∧
    (specAlignedOutput parse folders (((chunkify C folders).map server).flatten)).length =
      folders.length := by
  have hgather := gatherChunks_all_caught getFolderCatches server (chunkify C folders) hlen hrec
  have hlenj : (((chunkify C folders).map server).flatten).length = folders.length := by
    rw [joined_responses_length server (chunkify C folders) hlen, chunkify_flatten C hC folders]
  constructor
  · simp only [getFolderCall, hgather]
    congr 1
    unfold elemsToObjs specAlignedOutput
    rw [List.zip_map_right, List.map_map]
    congr 1
    funext p
    obtain ⟨f, r⟩ := p
    cases r <;> rfl
  · unfold specAlignedOutput
    rw [List.length_map, List.length_zip, hlenj, Nat.min_self]

/-- C2 witness: a concrete batch of three folders chunked at size 2, the
middle response element a recoverable folder-not-found fault — the output
has three entries in order, the error exactly at the middle position. -/
theorem getFolder_per_item_alignment_witness :
    getFolderCall 2
      (fun ch => ch.map (fun f =>
        if f = 1 then RespElem.fault .errorFolderNotFound else RespElem.success (f + 10)))
      (fun f e => f * 100 + e) [0, 1, 2] =
      .ok [.ok 10, .error .errorFolderNotFound, .ok 212] ∧
    getFolderCall 2
      (fun ch => ch.map (fun f =>
        if f = 1 then RespElem.fault .errorFolderNotFound else RespElem.success (f + 10)))
      (fun f e => f * 100 + e) ([0, 1, 2] : List Nat) =
      .ok (specAlignedOutput (fun f e => f * 100 + e) [0, 1, 2]
        (((chunkify 2 [0, 1, 2]).map (fun ch => ch.map (fun f =>
          if f = 1 then RespElem.fault .errorFolderNotFound
          else RespElem.success (f + 10)))).flatten)) := by
  constructor
  · rfl
  · exact (getFolder_per_item_alignment 2 (by decide) [0, 1, 2] _ _
      (by decide) (by decide)).1

end Exchangelib

